import Mathlib

/-!
Shallow embedding of `Generate-SubwayMap.py` (repository CyberSecDef/PsProc).

The script draws a stylized subway map onto a matplotlib canvas and
rasterizes it.  We embed the renderer (`SubwayMapGenerator`) as a pure
state:

* every drawing primitive the script issues against the canvas
  (`ax.add_patch` with a `Circle`, `ax.plot`, `ax.text`) is recorded, in
  call order, as an `Element` appended to `elements`;
* the `self.stations` Python dict is an insertion-ordered association
  list with Python's insert-or-update assignment semantics;
* coordinates, radii, widths and font sizes are exact rationals (the
  script only ever combines decimal literals by `+`, `-`, `*`).

Keyword arguments that a given matplotlib call site does not pass are
recorded as `none` (the embedding records exactly the arguments the
script passes, not matplotlib's internal defaults).
-/

/-- The `bbox=dict(...)` argument passed by `add_label`. -/
structure BBoxProps where
  boxstyle : String
  facecolor : String
  edgecolor : String
  alpha : ℚ
deriving DecidableEq, Repr

/-- A `Circle` patch added via `ax.add_patch` (center, radius, color, zorder). -/
structure CircleElem where
  x : ℚ
  y : ℚ
  radius : ℚ
  color : String
  zorder : Nat
deriving DecidableEq, Repr

/-- An `ax.plot` polyline (points, color, linewidth, optional linestyle,
zorder, optional solid_capstyle). -/
structure PlotElem where
  points : List (ℚ × ℚ)
  color : String
  linewidth : ℚ
  linestyle : Option String
  zorder : Nat
  solid_capstyle : Option String
deriving DecidableEq, Repr

/-- An `ax.text` element.  Fields are `none` when the call site omits the
corresponding keyword argument. -/
structure TextElem where
  x : ℚ
  y : ℚ
  content : String
  fontsize : Option ℚ
  ha : Option String
  va : Option String
  fontweight : Option String
  style : Option String
  color : Option String
  zorder : Option Nat
  bbox : Option BBoxProps
deriving DecidableEq, Repr

/-- One drawn canvas element. -/
inductive Element where
  | circle : CircleElem → Element
  | plot : PlotElem → Element
  | text : TextElem → Element
deriving DecidableEq, Repr

/-- The zorder (depth) of an element; `none` for a text call that did not
pass `zorder`. -/
def elementZorder : Element → Option Nat
  | Element.circle c => some c.zorder
  | Element.plot p => some p.zorder
  | Element.text t => t.zorder

/-- Whether the element is a text element. -/
def Element.isTextElem : Element → Bool
  | Element.text _ => true
  | _ => false

/-- Whether the element is an `ax.plot` polyline. -/
def Element.isPlotElem : Element → Bool
  | Element.plot _ => true
  | _ => false

/-- State of a `SubwayMapGenerator` instance: the constructor settings,
the drawn elements in order, and the `stations` dict.
`station_call_names` is a ghost log recording the `name` argument of each
`draw_station` call, in call order; it is used only to state call-count
properties and influences nothing else. -/
structure RendererState where
  figsize : ℚ × ℚ
  xlim : ℚ × ℚ
  ylim : ℚ × ℚ
  axis_on : Bool
  elements : List Element
  stations : List (String × ℚ × ℚ)
  station_call_names : List String
  fig_facecolor : Option String
  ax_facecolor : Option String
deriving DecidableEq, Repr

/-- `SubwayMapGenerator.__init__(width=20, height=16)`: fresh figure,
limits 0–100 on both axes, axes turned off, empty `stations` dict. -/
def init_generator (width height : ℚ) : RendererState :=
  { figsize := (width, height)
    xlim := (0, 100)
    ylim := (0, 100)
    axis_on := false
    elements := []
    stations := []
    station_call_names := []
    fig_facecolor := none
    ax_facecolor := none }

/-- The default-constructed renderer `SubwayMapGenerator()` used by `main`. -/
def initial_state : RendererState := init_generator 20 16

/-- The module-level `COLORS` palette dict. -/
def COLORS (key : String) : String :=
  if key = "system_info" then "#E63946"
  else if key = "network" then "#2A9D8F"
  else if key = "config" then "#F4A261"
  else if key = "devices" then "#E76F51"
  else if key = "processes" then "#264653"
  else if key = "storage" then "#8338EC"
  else ""

/-- Python dict assignment `d[key] = pos`: update the existing entry in
place if `key` is present, otherwise append a new entry. -/
def dictInsert (d : List (String × ℚ × ℚ)) (key : String) (pos : ℚ × ℚ) :
    List (String × ℚ × ℚ) :=
  if d.any (fun p => p.1 = key) then
    d.map (fun p => if p.1 = key then (key, pos) else p)
  else
    d ++ [(key, pos)]

/-- Python dict lookup `d[key]` (first entry with the given key). -/
def lookupStation : List (String × ℚ × ℚ) → String → Option (ℚ × ℚ)
  | [], _ => none
  | (k, v) :: rest, key => if k = key then some v else lookupStation rest key

/-- `self.ax.add_patch(Circle(...))`. -/
def ax_add_patch (s : RendererState) (c : CircleElem) : RendererState :=
  { s with elements := s.elements ++ [Element.circle c] }

/-- `self.ax.plot(...)`. -/
def ax_plot (s : RendererState) (p : PlotElem) : RendererState :=
  { s with elements := s.elements ++ [Element.plot p] }

/-- `self.ax.text(...)`. -/
def ax_text (s : RendererState) (t : TextElem) : RendererState :=
  { s with elements := s.elements ++ [Element.text t] }

/-- `draw_station(self, x, y, name, color, is_interchange=False, size=0.8)`.
All call sites below pass every argument explicitly (the Python defaults
are `is_interchange=False`, `size=0.8`). -/
def draw_station (s : RendererState) (x y : ℚ) (name color : String)
    (is_interchange : Bool) (size : ℚ) : RendererState :=
  let s :=
    if is_interchange then
      let s := ax_add_patch s
        { x := x, y := y, radius := size * 1.2, color := "white", zorder := 3 }
      ax_add_patch s { x := x, y := y, radius := size, color := color, zorder := 4 }
    else
      ax_add_patch s { x := x, y := y, radius := size, color := color, zorder := 3 }
  { s with
    stations := dictInsert s.stations name (x, y)
    station_call_names := s.station_call_names ++ [name] }

/-- `draw_line(self, points, color, linewidth=4, style='-')`.  Returns the
state unchanged when fewer than two points are given; otherwise plots one
polyline through the points at zorder 2 with round cap style. -/
def draw_line (s : RendererState) (points : List (ℚ × ℚ)) (color : String)
    (linewidth : ℚ) (style : String) : RendererState :=
  if points.length < 2 then s
  else
    ax_plot s
      { points := points, color := color, linewidth := linewidth,
        linestyle := some style, zorder := 2, solid_capstyle := some "round" }

/-- `add_label(self, x, y, text, fontsize=9, ha='left', va='center',
offset_x=2, offset_y=0, bbox_style=None, fontweight='normal')`.  Places
the text at `(x + offset_x, y + offset_y)` at zorder 5; when `bbox_style`
is truthy the text carries a rounded padded box with white fill, gray
edge and alpha 0.9. -/
def add_label (s : RendererState) (x y : ℚ) (text : String) (fontsize : ℚ)
    (ha va : String) (offset_x offset_y : ℚ) (bbox_style : Bool)
    (fontweight : String) : RendererState :=
  if bbox_style then
    ax_text s
      { x := x + offset_x, y := y + offset_y, content := text,
        fontsize := some fontsize, ha := some ha, va := some va,
        fontweight := some fontweight, style := none, color := none,
        zorder := some 5,
        bbox := some { boxstyle := "round,pad=0.3", facecolor := "white",
                       edgecolor := "gray", alpha := 0.9 } }
  else
    ax_text s
      { x := x + offset_x, y := y + offset_y, content := text,
        fontsize := some fontsize, ha := some ha, va := some va,
        fontweight := some fontweight, style := none, color := none,
        zorder := some 5, bbox := none }

/-- The `lines` list built inside `draw_legend`. -/
def legend_lines : List (String × String) :=
  [("System Info Line", COLORS "system_info"),
   ("Network Line", COLORS "network"),
   ("Configuration Line", COLORS "config"),
   ("Devices Line", COLORS "devices"),
   ("Process Line", COLORS "processes"),
   ("Storage Line", COLORS "storage")]

/-- The loop `for i, (label, color) in enumerate(lines)` of `draw_legend`:
for entry `i` (at `y = legend_y - i*2`) a colored segment from
`(legend_x, y)` to `(legend_x + 4, y)` at zorder 2, then the entry name
at `(legend_x + 5, y)` at zorder 5. -/
def legend_loop (legend_x legend_y : ℚ) :
    RendererState → Nat → List (String × String) → RendererState
  | s, _, [] => s
  | s, i, (label, color) :: rest =>
    let y := legend_y - (i : ℚ) * 2
    let s := ax_plot s
      { points := [(legend_x, y), (legend_x + 4, y)], color := color,
        linewidth := 4, linestyle := none, zorder := 2, solid_capstyle := none }
    let s := ax_text s
      { x := legend_x + 5, y := y, content := label, fontsize := some 10,
        ha := none, va := some "center", fontweight := none, style := none,
        color := none, zorder := some 5, bbox := none }
    legend_loop legend_x legend_y s (i + 1) rest

/-- `draw_legend(self)`: two bold title texts at `(5, 26)` and `(5, 23)`,
then the six legend entries via `legend_loop`. -/
def draw_legend (s : RendererState) : RendererState :=
  let legend_x : ℚ := 5
  let legend_y : ℚ := 8
  let s := ax_text s
    { x := legend_x, y := legend_y + 18, content := "PsProc Filesystem",
      fontsize := some 24, ha := none, va := none, fontweight := some "bold",
      style := none, color := none, zorder := some 5, bbox := none }
  let s := ax_text s
    { x := legend_x, y := legend_y + 15, content := "Subway Map",
      fontsize := some 20, ha := none, va := none, fontweight := some "bold",
      style := none, color := none, zorder := some 5, bbox := none }
  legend_loop legend_x legend_y s 0 legend_lines

/-!
`generate_map(self)` is a single long method; we embed it as a chain of
phase functions, one per commented section of the source, composed in
source order by `generate_map` below.  The local hub coordinates of the
method become the constants that follow.
-/

/-- `hub_x = 50` (local of `generate_map`). -/
def hub_x : ℚ := 50

/-- `hub_y = 50` (local of `generate_map`). -/
def hub_y : ℚ := 50

/-- Section "Central hub - ProcRoot". -/
def gm_hub (s : RendererState) : RendererState :=
  let s := draw_station s hub_x hub_y "proc:/" "black" true 1.5
  add_label s hub_x hub_y "proc:/" 14 "center" "center" 0 (-3) true "bold"

/-- The `sys_info_stations` list (the leading pair is the unnamed hub
tuple `(hub_x, hub_y)`, recorded here with an empty name; only its
coordinates are ever read). -/
def sys_info_stations : List (ℚ × ℚ × String) :=
  [(hub_x, hub_y, ""),
   (hub_x, hub_y + 8, "cpuinfo"),
   (hub_x, hub_y + 14, "meminfo"),
   (hub_x, hub_y + 20, "version"),
   (hub_x, hub_y + 26, "uptime"),
   (hub_x, hub_y + 32, "loadavg"),
   (hub_x, hub_y + 38, "stat")]

/-- Section "System Information Line (Red) - Vertical going up". -/
def gm_system_info (s : RendererState) : RendererState :=
  let s := draw_line s (sys_info_stations.map (fun t => (t.1, t.2.1)))
    (COLORS "system_info") 4 "-"
  (sys_info_stations.drop 1).foldl
    (fun s station =>
      let s := draw_station s station.1 station.2.1 station.2.2
        (COLORS "system_info") false 0.8
      add_label s station.1 station.2.1 station.2.2 9 "left" "center" 3 0 false "normal")
    s

/-- `net_hub_x = hub_x + 20`. -/
def net_hub_x : ℚ := hub_x + 20

/-- `net_hub_y = hub_y + 20`. -/
def net_hub_y : ℚ := hub_y + 20

/-- The `net_stations` list. -/
def net_stations : List (ℚ × ℚ × String) :=
  [(net_hub_x + 8, net_hub_y + 4, "dev"),
   (net_hub_x + 12, net_hub_y + 8, "route"),
   (net_hub_x + 16, net_hub_y + 4, "arp"),
   (net_hub_x + 20, net_hub_y, "tcp"),
   (net_hub_x + 20, net_hub_y - 4, "udp")]

/-- Section "Network Line (Teal) - Diagonal to upper right" (the source
iterates the sub-stations with `enumerate` but never uses the index). -/
def gm_network (s : RendererState) : RendererState :=
  let s := draw_line s [(hub_x, hub_y), (net_hub_x, net_hub_y)] (COLORS "network") 4 "-"
  let s := draw_station s net_hub_x net_hub_y "net/" (COLORS "network") true 0.8
  let s := add_label s net_hub_x net_hub_y "net/" 11 "center" "center" 0 2 true "bold"
  net_stations.foldl
    (fun s station =>
      let s := draw_line s [(net_hub_x, net_hub_y), (station.1, station.2.1)]
        (COLORS "network") 3 "-"
      let s := draw_station s station.1 station.2.1 ("net/" ++ station.2.2)
        (COLORS "network") false 0.6
      add_label s station.1 station.2.1 station.2.2 8 "left" "center" 2 0 false "normal")
    s

/-- `sys_hub_x = hub_x + 20`. -/
def sys_hub_x : ℚ := hub_x + 20

/-- `sys_hub_y = hub_y - 20`. -/
def sys_hub_y : ℚ := hub_y - 20

/-- `kernel_x = sys_hub_x + 10`. -/
def kernel_x : ℚ := sys_hub_x + 10

/-- `kernel_y = sys_hub_y - 8`. -/
def kernel_y : ℚ := sys_hub_y - 8

/-- The `kernel_stations` list. -/
def kernel_stations : List (ℚ × ℚ × String) :=
  [(kernel_x + 6, kernel_y - 4, "hostname"),
   (kernel_x + 10, kernel_y - 6, "ostype"),
   (kernel_x + 14, kernel_y - 4, "osrelease"),
   (kernel_x + 18, kernel_y, "version")]

/-- Sections "Configuration Line (Orange) - Diagonal to lower right" and
"sys/kernel sub-stations". -/
def gm_config (s : RendererState) : RendererState :=
  let s := draw_line s [(hub_x, hub_y), (sys_hub_x, sys_hub_y)] (COLORS "config") 4 "-"
  let s := draw_station s sys_hub_x sys_hub_y "sys/" (COLORS "config") true 0.8
  let s := add_label s sys_hub_x sys_hub_y "sys/" 11 "center" "center" 0 (-2.5) true "bold"
  let s := draw_line s [(sys_hub_x, sys_hub_y), (kernel_x, kernel_y)] (COLORS "config") 4 "-"
  let s := draw_station s kernel_x kernel_y "sys/kernel/" (COLORS "config") true 0.9
  let s := add_label s kernel_x kernel_y "kernel/" 10 "center" "center" 0 (-2) false "bold"
  kernel_stations.foldl
    (fun s station =>
      let s := draw_line s [(kernel_x, kernel_y), (station.1, station.2.1)]
        (COLORS "config") 3 "-"
      let s := draw_station s station.1 station.2.1 ("kernel/" ++ station.2.2)
        (COLORS "config") false 0.6
      add_label s station.1 station.2.1 station.2.2 8 "left" "center" 2 0 false "normal")
    s

/-- `dev_hub_x = hub_x + 22`. -/
def dev_hub_x : ℚ := hub_x + 22

/-- `dev_hub_y = hub_y`. -/
def dev_hub_y : ℚ := hub_y

/-- The `dev_stations` list. -/
def dev_stations : List (ℚ × ℚ × String) :=
  [(dev_hub_x + 8, dev_hub_y + 3, "block"),
   (dev_hub_x + 8, dev_hub_y - 3, "character")]

/-- Section "Devices Line (Coral) - Horizontal to right". -/
def gm_devices (s : RendererState) : RendererState :=
  let s := draw_line s [(hub_x, hub_y), (dev_hub_x, dev_hub_y)] (COLORS "devices") 4 "-"
  let s := draw_station s dev_hub_x dev_hub_y "devices/" (COLORS "devices") true 0.8
  let s := add_label s dev_hub_x dev_hub_y "devices/" 11 "center" "center" 0 2 true "bold"
  dev_stations.foldl
    (fun s station =>
      let s := draw_line s [(dev_hub_x, dev_hub_y), (station.1, station.2.1)]
        (COLORS "devices") 3 "-"
      let s := draw_station s station.1 station.2.1 ("devices/" ++ station.2.2)
        (COLORS "devices") false 0.6
      add_label s station.1 station.2.1 station.2.2 8 "left" "center" 2 0 false "normal")
    s

/-- `proc_hub_x = hub_x - 20`. -/
def proc_hub_x : ℚ := hub_x - 20

/-- `proc_hub_y = hub_y + 20`. -/
def proc_hub_y : ℚ := hub_y + 20

/-- The `self_stations` list. -/
def self_stations : List (ℚ × ℚ × String) :=
  [(proc_hub_x - 8, proc_hub_y + 4, "cmdline"),
   (proc_hub_x - 12, proc_hub_y + 8, "status"),
   (proc_hub_x - 16, proc_hub_y + 4, "stat"),
   (proc_hub_x - 18, proc_hub_y, "environ")]

/-- Section "Process Line (Dark Blue) - Diagonal to upper left". -/
def gm_process (s : RendererState) : RendererState :=
  let s := draw_line s [(hub_x, hub_y), (proc_hub_x, proc_hub_y)] (COLORS "processes") 4 "-"
  let s := draw_station s proc_hub_x proc_hub_y "self/" (COLORS "processes") true 0.8
  let s := add_label s proc_hub_x proc_hub_y "self/" 11 "center" "center" 0 2 true "bold"
  self_stations.foldl
    (fun s station =>
      let s := draw_line s [(proc_hub_x, proc_hub_y), (station.1, station.2.1)]
        (COLORS "processes") 3 "-"
      let s := draw_station s station.1 station.2.1 ("self/" ++ station.2.2)
        (COLORS "processes") false 0.6
      add_label s station.1 station.2.1 station.2.2 8 "right" "center" (-2) 0 false "normal")
    s

/-- `pid_x = proc_hub_x`. -/
def pid_x : ℚ := proc_hub_x

/-- `pid_y = proc_hub_y + 12`. -/
def pid_y : ℚ := proc_hub_y + 12

/-- The `pid_stations` list. -/
def pid_stations : List (ℚ × ℚ × String) :=
  [(pid_x - 6, pid_y + 4, "cmdline"),
   (pid_x - 10, pid_y + 6, "status"),
   (pid_x - 14, pid_y + 4, "stat"),
   (pid_x - 16, pid_y, "environ"),
   (pid_x - 16, pid_y - 4, "maps")]

/-- Section "[PID] branch". -/
def gm_pid (s : RendererState) : RendererState :=
  let s := draw_line s [(proc_hub_x, proc_hub_y), (pid_x, pid_y)] (COLORS "processes") 4 "-"
  let s := draw_station s pid_x pid_y "[PID]/" (COLORS "processes") true 0.9
  let s := add_label s pid_x pid_y "[PID]/" 10 "center" "center" 0 2 false "bold"
  pid_stations.foldl
    (fun s station =>
      let s := draw_line s [(pid_x, pid_y), (station.1, station.2.1)]
        (COLORS "processes") 3 "-"
      let s := draw_station s station.1 station.2.1 ("[PID]/" ++ station.2.2)
        (COLORS "processes") false 0.6
      add_label s station.1 station.2.1 station.2.2 8 "right" "center" (-2) 0 false "normal")
    s

/-- The `storage_stations` list (leading hub tuple as in
`sys_info_stations`). -/
def storage_stations : List (ℚ × ℚ × String) :=
  [(hub_x, hub_y, ""),
   (hub_x - 8, hub_y - 8, "mounts"),
   (hub_x - 14, hub_y - 14, "swaps"),
   (hub_x - 20, hub_y - 20, "partitions"),
   (hub_x - 26, hub_y - 26, "filesystems")]

/-- Section "Storage Line (Purple) - Diagonal to lower left". -/
def gm_storage (s : RendererState) : RendererState :=
  let s := draw_line s (storage_stations.map (fun t => (t.1, t.2.1)))
    (COLORS "storage") 4 "-"
  (storage_stations.drop 1).foldl
    (fun s station =>
      let s := draw_station s station.1 station.2.1 station.2.2
        (COLORS "storage") false 0.8
      add_label s station.1 station.2.1 station.2.2 9 "right" "center" (-2) 0 false "normal")
    s

/-- Section "Additional files - modules and cmdline as single stations". -/
def gm_extra_files (s : RendererState) : RendererState :=
  let s := draw_line s [(hub_x, hub_y), (hub_x - 12, hub_y)] (COLORS "system_info") 3 "-"
  let s := draw_station s (hub_x - 12) hub_y "modules" (COLORS "system_info") false 0.6
  let s := add_label s (hub_x - 12) hub_y "modules" 8 "right" "center" (-2) 0 false "normal"
  let s := draw_line s [(hub_x, hub_y), (hub_x, hub_y - 8)] (COLORS "system_info") 3 "-"
  let s := draw_station s hub_x (hub_y - 8) "cmdline" (COLORS "system_info") false 0.6
  add_label s hub_x (hub_y - 8) "cmdline" 8 "center" "center" 2 (-2) false "normal"

/-- Sections "Add footer info" and "Set background color". -/
def gm_footer (s : RendererState) : RendererState :=
  let s := ax_text s
    { x := 50, y := 2, content := "PowerShell proc: Drive Filesystem Structure",
      fontsize := some 10, ha := some "center", va := none, fontweight := none,
      style := some "italic", color := some "gray", zorder := none, bbox := none }
  let s := ax_text s
    { x := 50, y := 0.5, content := "Generated by Generate-SubwayMap.py",
      fontsize := some 8, ha := some "center", va := none, fontweight := none,
      style := none, color := some "gray", zorder := none, bbox := none }
  { s with fig_facecolor := some "#f5f5f5", ax_facecolor := some "white" }

/-- `generate_map(self)`: the full fixed drawing sequence, phase by phase
in source order, ending with the legend, the footer and the background
color assignments. -/
def generate_map (s : RendererState) : RendererState :=
  gm_footer (draw_legend (gm_extra_files (gm_storage (gm_pid (gm_process
    (gm_devices (gm_config (gm_network (gm_system_info (gm_hub s))))))))))

/-- The arguments the `ax.savefig` call in `save` receives. -/
structure SavefigCall where
  fname : String
  dpi : Int
  bbox_inches : String
  facecolor : String
deriving DecidableEq, Repr

/-- `save(self, filename='codebase-subway-map.png', dpi=300)`: the
`plt.savefig` call it issues (the canvas itself is not modified). -/
def save (filename : String) (dpi : Int) : SavefigCall :=
  { fname := filename, dpi := dpi, bbox_inches := "tight", facecolor := "#f5f5f5" }

/-- The argparse result in `main`: `-o, --output` falls back to
`'codebase-subway-map.png'` and `--dpi` (an int) falls back to `300` when
the flag is absent on the command line. -/
def parse_args (output : Option String) (dpi : Option Int) : String × Int :=
  (output.getD "codebase-subway-map.png", dpi.getD 300)

/-- `main()`: parse the two flags, build the default generator, generate
the map, and save with `filename=args.output, dpi=args.dpi`.  Returns the
final renderer state together with the issued savefig call. -/
def main_run (output : Option String) (dpi : Option Int) :
    RendererState × SavefigCall :=
  let args := parse_args output dpi
  let generator := init_generator 20 16
  let generator := generate_map generator
  (generator, save args.1 args.2)

/-- One invocation of the drawing pipeline.  The run index stands for
everything that may differ between two separate invocations (time,
process state, …); the script consults none of it, so the index is
unused. -/
def runProgram (_run : Nat) : RendererState := generate_map initial_state

/-- One legend entry as the spec describes it: a short colored segment
from `(5, y)` to `(9, y)` plus the entry name as text at `(10, y)`. -/
def legendEntry (y : ℚ) (label color : String) : List Element :=
  [Element.plot
    { points := [(5, y), (9, y)], color := color, linewidth := 4,
      linestyle := none, zorder := 2, solid_capstyle := none },
   Element.text
    { x := 10, y := y, content := label, fontsize := some 10, ha := none,
      va := some "center", fontweight := none, style := none, color := none,
      zorder := some 5, bbox := none }]

/-- The legend, spelled out from the spec: the two-line title block at
`(5, 26)` and `(5, 23)`, then the six entries in palette order, spaced 2
units apart vertically starting at `y = 8`. -/
def legendElements : List Element :=
  [Element.text
    { x := 5, y := 26, content := "PsProc Filesystem", fontsize := some 24,
      ha := none, va := none, fontweight := some "bold", style := none,
      color := none, zorder := some 5, bbox := none },
   Element.text
    { x := 5, y := 23, content := "Subway Map", fontsize := some 20,
      ha := none, va := none, fontweight := some "bold", style := none,
      color := none, zorder := some 5, bbox := none }] ++
  legendEntry 8 "System Info Line" "#E63946" ++
  legendEntry 6 "Network Line" "#2A9D8F" ++
  legendEntry 4 "Configuration Line" "#F4A261" ++
  legendEntry 2 "Devices Line" "#E76F51" ++
  legendEntry 0 "Process Line" "#264653" ++
  legendEntry (-2) "Storage Line" "#8338EC"

/-!  Helper lemmas about the drawing primitives. -/

theorem lookupStation_append (d1 d2 : List (String × ℚ × ℚ)) (key : String) :
    lookupStation (d1 ++ d2) key =
      match lookupStation d1 key with
      | some v => some v
      | none => lookupStation d2 key := by
  induction d1 with
  | nil => simp [lookupStation]
  | cons a d ih =>
    obtain ⟨k, v⟩ := a
    by_cases h : k = key <;> simp [lookupStation, h, ih]

theorem lookupStation_eq_none_of_any_eq_false (d : List (String × ℚ × ℚ))
    (key : String) (h : d.any (fun p => p.1 = key) = false) :
    lookupStation d key = none := by
  induction d with
  | nil => rfl
  | cons a d ih =>
    simp only [List.any_cons, Bool.or_eq_false_iff, decide_eq_false_iff_not] at h
    simp [lookupStation, h.1, ih h.2]

theorem lookupStation_replace_ne (d : List (String × ℚ × ℚ)) (k : String)
    (v : ℚ × ℚ) (key : String) (h : key ≠ k) :
    lookupStation (d.map (fun p => if p.1 = k then (k, v) else p)) key =
      lookupStation d key := by
  induction d with
  | nil => rfl
  | cons a d ih =>
    obtain ⟨ak, av⟩ := a
    by_cases hak : ak = k
    · have h1 : (if (ak, av).1 = k then (k, v) else (ak, av)) = (k, v) := by
        simp [hak]
      rw [List.map_cons, h1]
      simp only [lookupStation]
      rw [if_neg (fun hc : k = key => h hc.symm),
        if_neg (fun hc : ak = key => h (hc.symm.trans hak))]
      exact ih
    · have h1 : (if (ak, av).1 = k then (k, v) else (ak, av)) = (ak, av) := by
        simp [hak]
      rw [List.map_cons, h1]
      simp only [lookupStation]
      by_cases hkey : ak = key
      · rw [if_pos hkey, if_pos hkey]
      · rw [if_neg hkey, if_neg hkey]
        exact ih

theorem lookupStation_replace_self (d : List (String × ℚ × ℚ)) (k : String)
    (v : ℚ × ℚ) (h : d.any (fun p => p.1 = k) = true) :
    lookupStation (d.map (fun p => if p.1 = k then (k, v) else p)) k = some v := by
  induction d with
  | nil => simp at h
  | cons a d ih =>
    obtain ⟨ak, av⟩ := a
    by_cases hak : ak = k
    · have h1 : (if (ak, av).1 = k then (k, v) else (ak, av)) = (k, v) := by
        simp [hak]
      rw [List.map_cons, h1]
      simp [lookupStation]
    · have h1 : (if (ak, av).1 = k then (k, v) else (ak, av)) = (ak, av) := by
        simp [hak]
      have h2 : d.any (fun p => p.1 = k) = true := by
        simp only [List.any_cons, Bool.or_eq_true, decide_eq_true_eq] at h
        rcases h with h | h
        · exact absurd h hak
        · exact h
      rw [List.map_cons, h1]
      simp only [lookupStation]
      rw [if_neg hak]
      exact ih h2

theorem lookupStation_dictInsert (d : List (String × ℚ × ℚ)) (k : String)
    (v : ℚ × ℚ) (key : String) :
    lookupStation (dictInsert d k v) key =
      if key = k then some v else lookupStation d key := by
  unfold dictInsert
  by_cases hany : d.any (fun p => p.1 = k) = true
  · rw [if_pos hany]
    by_cases hk : key = k
    · rw [if_pos hk, hk]
      exact lookupStation_replace_self d k v hany
    · rw [if_neg hk]
      exact lookupStation_replace_ne d k v key hk
  · rw [if_neg hany]
    rw [lookupStation_append]
    have hnone : lookupStation d k = none :=
      lookupStation_eq_none_of_any_eq_false d k (Bool.eq_false_iff.mpr hany)
    by_cases hk : key = k
    · rw [if_pos hk, hk]
      simp [hnone, lookupStation]
    · cases hcase : lookupStation d key with
      | some w => simp [hcase, hk]
      | none => simp [hcase, hk, lookupStation, Ne.symm hk]

theorem draw_station_stations_eq (s : RendererState) (x y : ℚ)
    (name color : String) (inter : Bool) (size : ℚ) :
    (draw_station s x y name color inter size).stations =
      dictInsert s.stations name (x, y) := by
  cases inter <;> rfl

theorem draw_station_elements_eq (s : RendererState) (x y : ℚ)
    (name color : String) (inter : Bool) (size : ℚ) :
    (draw_station s x y name color inter size).elements =
      s.elements ++
        (if inter then
          [Element.circle
            { x := x, y := y, radius := size * 1.2, color := "white", zorder := 3 },
           Element.circle
            { x := x, y := y, radius := size, color := color, zorder := 4 }]
        else
          [Element.circle
            { x := x, y := y, radius := size, color := color, zorder := 3 }]) := by
  cases inter <;> simp [draw_station, ax_add_patch]

theorem draw_line_elements_eq (s : RendererState) (points : List (ℚ × ℚ))
    (color : String) (lw : ℚ) (sty : String) (h : ¬ points.length < 2) :
    (draw_line s points color lw sty).elements =
      s.elements ++
        [Element.plot
          { points := points, color := color, linewidth := lw,
            linestyle := some sty, zorder := 2, solid_capstyle := some "round" }] := by
  unfold draw_line
  rw [if_neg h]
  rfl

theorem draw_legend_state (s : RendererState) :
    draw_legend s = { s with elements := s.elements ++ legendElements } := by
  simp [draw_legend, legend_loop, legend_lines, ax_text, ax_plot, COLORS,
    legendElements, legendEntry, List.append_assoc]
  norm_num

/-!  Claim theorems. -/

/-- Claim C1: a `draw_line` call with fewer than two points is a no-op:
it returns without error and leaves the whole renderer state — canvas
elements and the stations mapping included — unchanged, for every color,
width and style argument. -/
theorem draw_line_fewer_than_two_points_noop (s : RendererState)
    (points : List (ℚ × ℚ)) (color : String) (linewidth : ℚ) (style : String)
    (h : points.length < 2) :
    draw_line s points color linewidth style = s := by
  unfold draw_line
  rw [if_pos h]

/-- Witness for C1 at a concrete one-point call. -/
theorem draw_line_fewer_than_two_points_noop_witness :
    [((1 : ℚ), (2 : ℚ))].length < 2 ∧
      draw_line initial_state [(1, 2)] "red" 4 "-" = initial_state :=
  ⟨by decide,
   draw_line_fewer_than_two_points_noop initial_state [(1, 2)] "red" 4 "-"
     (by decide)⟩

/-- Claim C2: `draw_station` adds exactly one filled circle of radius
`size` in the given color (at zorder 3) when `is_interchange` is false,
and exactly two circles when it is true — a white circle of radius
`1.2*size` at zorder 3 beneath a filled circle of radius `size` in the
given color at zorder 4 on top. -/
theorem draw_station_circles (s : RendererState) (x y : ℚ)
    (name color : String) (inter : Bool) (size : ℚ) :
    (draw_station s x y name color inter size).elements =
      s.elements ++
        (if inter then
          [Element.circle
            { x := x, y := y, radius := size * 1.2, color := "white", zorder := 3 },
           Element.circle
            { x := x, y := y, radius := size, color := color, zorder := 4 }]
        else
          [Element.circle
            { x := x, y := y, radius := size, color := color, zorder := 3 }]) := by
  cases inter <;> simp [draw_station, ax_add_patch]

/-- Claim C3 (counterexample): it is not the case that every element
drawn by `draw_legend` has depth 5 — on the fresh renderer the legend's
color-swatch segments are drawn at zorder 2. -/
theorem draw_legend_depth_claim_cex :
    ((draw_legend initial_state).elements.all
      (fun e => elementZorder e == some 5)) = false := by
  decide

/-- Claim C3 (amended): every polyline drawn by `draw_line` has depth 2,
every station circle drawn by `draw_station` has depth 3 or 4, every
text drawn by `add_label` has depth 5, and among the elements drawn by
`draw_legend` every text has depth 5 while every line segment (the six
color swatches) has depth 2. -/
theorem depth_layering_amended (s : RendererState) (points : List (ℚ × ℚ))
    (c : String) (lw : ℚ) (sty : String) (x y : ℚ) (name : String)
    (inter : Bool) (size : ℚ) (t : String) (fs : ℚ) (ha va : String)
    (ox oy : ℚ) (bb : Bool) (fw : String) :
    (((draw_line s points c lw sty).elements.drop s.elements.length).all
        (fun e => elementZorder e == some 2)) = true ∧
    (((draw_station s x y name c inter size).elements.drop s.elements.length).all
        (fun e => elementZorder e == some 3 || elementZorder e == some 4)) = true ∧
    (((add_label s x y t fs ha va ox oy bb fw).elements.drop s.elements.length).all
        (fun e => elementZorder e == some 5)) = true ∧
    (((draw_legend s).elements.drop s.elements.length).all
        (fun e => (e.isTextElem && elementZorder e == some 5) ||
                  (e.isPlotElem && elementZorder e == some 2))) = true := by
  refine ⟨?_, ?_, ?_, ?_⟩
  · by_cases h : points.length < 2
    · have hs : draw_line s points c lw sty = s := by
        unfold draw_line
        rw [if_pos h]
      rw [hs, List.drop_length]
      rfl
    · rw [draw_line_elements_eq s points c lw sty h, List.drop_left]
      rfl
  · rw [draw_station_elements_eq]
    rw [List.drop_left]
    cases inter <;> rfl
  · cases bb <;>
      simp [add_label, ax_text, List.drop_left, elementZorder]
  · rw [draw_legend_state]
    show ((s.elements ++ legendElements).drop s.elements.length).all _ = true
    rw [List.drop_left]
    rfl

set_option maxRecDepth 100000 in
/-- Claim C4: after one `generate_map` on a freshly constructed renderer
the names passed to `draw_station` are pairwise distinct, and the
`stations` dict therefore holds exactly one entry per `draw_station`
call (39 calls, 39 entries). -/
theorem generate_map_station_names_unique :
    (generate_map initial_state).station_call_names.Nodup ∧
    (generate_map initial_state).stations.length =
      (generate_map initial_state).station_call_names.length := by
  constructor
  · decide
  · rfl

/-- Claim C5: `generate_map` is deterministic — the drawn state is a
fixed value, independent of anything that could vary between two runs
(the script consults no randomness, time or external input). -/
theorem generate_map_deterministic (i j : Nat) : runProgram i = runProgram j := rfl

/-- Claim C6: after `draw_station(x, y, name, ...)` the stations mapping
binds `name` to exactly `(x, y)`, whatever the interchange flag and size,
and every other key is unchanged. -/
theorem draw_station_records_position (s : RendererState) (x y : ℚ)
    (name color : String) (inter : Bool) (size : ℚ) :
    lookupStation (draw_station s x y name color inter size).stations name
      = some (x, y) ∧
    ∀ key, key ≠ name →
      lookupStation (draw_station s x y name color inter size).stations key =
        lookupStation s.stations key := by
  have hst : (draw_station s x y name color inter size).stations =
      dictInsert s.stations name (x, y) := by
    cases inter <;> rfl
  constructor
  · rw [hst, lookupStation_dictInsert, if_pos rfl]
  · intro key hkey
    rw [hst, lookupStation_dictInsert, if_neg hkey]

/-- Witness for C6 at a concrete call and a concrete other key. -/
theorem draw_station_records_position_witness :
    lookupStation (draw_station initial_state 1 2 "a" "red" false 0.8).stations "a"
      = some (1, 2) ∧
    lookupStation (draw_station initial_state 1 2 "a" "red" false 0.8).stations "b"
      = lookupStation initial_state.stations "b" :=
  ⟨(draw_station_records_position initial_state 1 2 "a" "red" false 0.8).1,
   (draw_station_records_position initial_state 1 2 "a" "red" false 0.8).2 "b"
     (by decide)⟩

/-- Claim C7: one `draw_legend` call appends exactly the title block and
the six legend entries of `legendElements` — in palette order, each a
short colored segment plus its name as text, vertically spaced 2 units
apart starting at `(5, 8)` — and touches nothing else of the state. -/
theorem draw_legend_fixed_entries (s : RendererState) :
    draw_legend s = { s with elements := s.elements ++ legendElements } :=
  draw_legend_state s

/-- Claim C8: `add_label` anchors the text at exactly
`(x + offset_x, y + offset_y)`, and draws a padded rounded box with white
fill and gray border at 90% opacity exactly when the background option is
set. -/
theorem add_label_offset_and_bbox (s : RendererState) (x y : ℚ) (t : String)
    (fs : ℚ) (ha va : String) (ox oy : ℚ) (bb : Bool) (fw : String) :
    (add_label s x y t fs ha va ox oy bb fw).elements =
      s.elements ++
        [Element.text
          { x := x + ox, y := y + oy, content := t, fontsize := some fs,
            ha := some ha, va := some va, fontweight := some fw, style := none,
            color := none, zorder := some 5,
            bbox :=
              if bb then
                some { boxstyle := "round,pad=0.3", facecolor := "white",
                       edgecolor := "gray", alpha := 0.9 }
              else none }] := by
  cases bb <;> rfl

/-- Claim C9: without `-o` the output filename is exactly
`codebase-subway-map.png`, without `--dpi` the DPI is exactly 300, and
explicitly given values reach the savefig call unchanged. -/
theorem cli_defaults_and_passthrough :
    (∀ d, ((main_run none d).2).fname = "codebase-subway-map.png") ∧
    (∀ o, ((main_run o none).2).dpi = 300) ∧
    (∀ o d, (main_run (some o) (some d)).2 = save o d) :=
  ⟨fun _ => rfl, fun _ => rfl, fun _ _ => rfl⟩

/-- Claim C10: only `draw_station` writes the stations mapping —
`draw_line`, `add_label` and `draw_legend` leave it exactly as it was,
for all arguments. -/
theorem stations_frame (s : RendererState) (points : List (ℚ × ℚ))
    (c : String) (lw : ℚ) (sty : String) (x y : ℚ) (t : String) (fs : ℚ)
    (ha va : String) (ox oy : ℚ) (bb : Bool) (fw : String) :
    (draw_line s points c lw sty).stations = s.stations ∧
    (add_label s x y t fs ha va ox oy bb fw).stations = s.stations ∧
    (draw_legend s).stations = s.stations := by
  refine ⟨?_, ?_, ?_⟩
  · unfold draw_line
    split <;> rfl
  · cases bb <;> rfl
  · rw [draw_legend_state]
